import Mathlib

/-!
# Verification of `fastqContaminator.py` (moka-guys/fastq_contaminator)

Shallow embedding of the orchestration script `src/fastqContaminator.py`.

Modelling conventions:
* A fastq file is the list of its text lines (`FastqFile`); `countFileLines`
  is the length of that list.
* Python floats are modelled as exact rationals; `int(x)` applied to a float
  is truncation toward zero (`pyInt`).  The script is Python 2, so
  `numOfSampleLines / 4` on machine integers is floor division (`Int.fdiv`).
* `"%s" % someInt` renders the integer in decimal (`intRepr`).
* The external tool `fastq-sample` is an opaque deterministic collaborator
  (a `Sampler` parameter): its pair of output files is a function of the two
  input mate files, the seed and the requested read count.
* Every `subprocess.call` is recorded as the exact command string the script
  builds; the filesystem effect of the `cat`/`rm` pipeline is recorded as the
  concatenated output contents and the list of deleted temporary files.
* `sys.exit()` is called with no argument everywhere in the script, which
  terminates the process with exit status 0; process termination is modelled
  by returning a `ProgramOutcome` whose `terminatingError` names the error
  printed (if any) and whose `exitCode` is the process exit status.
-/

/-- A fastq file, modelled as the list of its text lines. -/
abbrev FastqFile := List String

/-- `countFileLines`: `sum(1 for line in open(myFile))` — the number of lines
of the file. -/
def countFileLines (myFile : FastqFile) : ℕ := myFile.length

/-- Python `int(x)` applied to a float (modelled as an exact rational):
truncation toward zero. -/
def pyInt (q : ℚ) : ℤ := q.num.tdiv (q.den : ℤ)

/-- The decimal digit characters, as Python's `str` renders them. -/
def digitChar : ℕ → Char
  | 0 => '0'
  | 1 => '1'
  | 2 => '2'
  | 3 => '3'
  | 4 => '4'
  | 5 => '5'
  | 6 => '6'
  | 7 => '7'
  | 8 => '8'
  | _ => '9'

/-- Inverse of `digitChar` on the ten digit characters. -/
def charToDigit : Char → ℕ
  | '0' => 0
  | '1' => 1
  | '2' => 2
  | '3' => 3
  | '4' => 4
  | '5' => 5
  | '6' => 6
  | '7' => 7
  | '8' => 8
  | _ => 9

/-- Little-endian decimal digits of `n`, with explicit structural fuel
(`fuel ≥ n` suffices, and then the result does not depend on the fuel). -/
def natDigitsRevAux : ℕ → ℕ → List Char
  | _, 0 => []
  | 0, _ + 1 => []
  | f + 1, m + 1 => digitChar ((m + 1) % 10) :: natDigitsRevAux f ((m + 1) / 10)

/-- Little-endian decimal digits of `n` (empty for `n = 0`). -/
def natDigitsRev (n : ℕ) : List Char := natDigitsRevAux n n

/-- Decimal rendering of a natural number, as Python renders it. -/
def natRepr (n : ℕ) : String := if n = 0 then "0" else String.mk (natDigitsRev n).reverse

/-- Decimal rendering of an integer, as Python's `"%s" % k` renders it. -/
def intRepr (k : ℤ) : String :=
  if k < 0 then "-" ++ natRepr k.natAbs else natRepr k.natAbs

/-- Read a little-endian digit list back as a natural number. -/
def parseRevDigits : List Char → ℕ
  | [] => 0
  | c :: cs => charToDigit c + 10 * parseRevDigits cs

/-- Read the decimal rendering of a natural number back. -/
def strParseNat (s : String) : ℕ := parseRevDigits s.data.reverse

theorem charToDigit_digitChar : ∀ m, m < 10 → charToDigit (digitChar m) = m := by decide

theorem digitChar_isDigit : ∀ m, m < 10 → (digitChar m).isDigit = true := by decide

theorem natDigitsRevAux_parse (fuel : ℕ) :
    ∀ n, n ≤ fuel → parseRevDigits (natDigitsRevAux fuel n) = n := by
  induction fuel with
  | zero =>
    intro n hn
    interval_cases n
    rfl
  | succ f ih =>
    intro n hn
    match n with
    | 0 => rfl
    | m + 1 =>
      have hdiv : (m + 1) / 10 ≤ f := by
        have := Nat.div_lt_self (Nat.succ_pos m) (by norm_num : 1 < 10)
        omega
      have hmod : (m + 1) % 10 < 10 := Nat.mod_lt _ (by norm_num)
      simp only [natDigitsRevAux, parseRevDigits, charToDigit_digitChar _ hmod, ih _ hdiv]
      omega

theorem natDigitsRev_parse (n : ℕ) : parseRevDigits (natDigitsRev n) = n :=
  natDigitsRevAux_parse n n le_rfl

theorem strParseNat_natRepr (n : ℕ) : strParseNat (natRepr n) = n := by
  by_cases h : n = 0
  · subst h; rfl
  · simp only [natRepr, h, if_false, strParseNat]
    show parseRevDigits (natDigitsRev n).reverse.reverse = n
    rw [List.reverse_reverse]
    exact natDigitsRev_parse n

theorem natRepr_injective : Function.Injective natRepr := by
  intro a b h
  rw [← strParseNat_natRepr a, ← strParseNat_natRepr b, h]

theorem natDigitsRevAux_all_digits (fuel : ℕ) :
    ∀ n, ∀ c ∈ natDigitsRevAux fuel n, c.isDigit = true := by
  induction fuel with
  | zero =>
    intro n c hc
    match n with
    | 0 => simp [natDigitsRevAux] at hc
    | m + 1 => simp [natDigitsRevAux] at hc
  | succ f ih =>
    intro n c hc
    match n with
    | 0 => simp [natDigitsRevAux] at hc
    | m + 1 =>
      simp only [natDigitsRevAux, List.mem_cons] at hc
      rcases hc with hc | hc
      · subst hc; exact digitChar_isDigit _ (Nat.mod_lt _ (by norm_num))
      · exact ih _ _ hc

theorem natRepr_all_digits (n : ℕ) : ∀ c ∈ (natRepr n).data, c.isDigit = true := by
  intro c hc
  by_cases h : n = 0
  · subst h
    simp only [natRepr, if_true] at hc
    have : c = '0' := by simpa using hc
    subst this; rfl
  · simp only [natRepr, h, if_false] at hc
    have : c ∈ (natDigitsRev n).reverse := hc
    rw [List.mem_reverse] at this
    exact natDigitsRevAux_all_digits n n c this

theorem intRepr_injective : Function.Injective intRepr := by
  intro a b h
  unfold intRepr at h
  have hdata := congrArg String.data h
  by_cases ha : a < 0 <;> by_cases hb : b < 0 <;>
      simp only [ha, hb, if_true, if_false] at h hdata
  · have := natRepr_injective (String.ext (List.append_cancel_left hdata))
    omega
  · exfalso
    have hmem : '-' ∈ (natRepr b.natAbs).data := by
      have : ('-' :: (natRepr a.natAbs).data) = (natRepr b.natAbs).data := hdata
      rw [← this]; exact List.mem_cons_self _ _
    have := natRepr_all_digits b.natAbs '-' hmem
    simp [Char.isDigit] at this
  · exfalso
    have hmem : '-' ∈ (natRepr a.natAbs).data := by
      have : ('-' :: (natRepr b.natAbs).data) = (natRepr a.natAbs).data := hdata.symm
      rw [← this]; exact List.mem_cons_self _ _
    have := natRepr_all_digits a.natAbs '-' hmem
    simp [Char.isDigit] at this
  · have := natRepr_injective h
    omega

theorem pyInt_eq_floor {q : ℚ} (hq : 0 ≤ q) : pyInt q = ⌊q⌋ := by
  unfold pyInt
  rw [Int.tdiv_eq_ediv (Rat.num_nonneg.mpr hq) (by positivity), Rat.floor_def]

theorem fdiv_four_eq_floor (n : ℤ) : n.fdiv 4 = ⌊(n : ℚ) / 4⌋ := by
  rw [Int.fdiv_eq_ediv n (by norm_num : (0 : ℤ) ≤ 4)]
  have h := Rat.floor_intCast_div_natCast n 4
  simpa using h.symm

theorem pyInt_intCast (k : ℤ) : pyInt (k : ℚ) = k := by
  unfold pyInt
  rw [Rat.num_intCast, Rat.den_intCast]
  simp

theorem pyInt_eq_of_bounds (q : ℚ) (k : ℤ) (h0 : 0 ≤ q)
    (h1 : (k : ℚ) ≤ q) (h2 : q < (k : ℚ) + 1) : pyInt q = k := by
  rw [pyInt_eq_floor h0, Int.floor_eq_iff]
  exact ⟨h1, h2⟩

/-- The errors the script can print before calling `sys.exit()`: the two
mate-pair mismatch messages of `checkInputFiles` and the
`"Contamination file too small to provide the %d lines required for %f
contamination."` message of `calculateLinesRequired`, which names the
required line count and the proportion. -/
inductive RunError where
  | sampleMismatch : RunError
  | contaminantMismatch : RunError
  | contaminantTooSmall (requiredLines : ℤ) (proportion : ℚ) : RunError
deriving DecidableEq

/-- `checkInputFiles`: errors with the message identifying the pair whose
line counts differ, otherwise returns normally. -/
def checkInputFiles (sampleReads1 sampleReads2 contaminantReads1 contaminantReads2 : FastqFile) :
    Except RunError Unit :=
  if countFileLines sampleReads1 ≠ countFileLines sampleReads2 then
    Except.error RunError.sampleMismatch
  else if countFileLines contaminantReads1 ≠ countFileLines contaminantReads2 then
    Except.error RunError.contaminantMismatch
  else Except.ok ()

/-- `numOfSampleLines = int(numOfLines * (1 - proportionContaminant))`. -/
def numOfSampleLinesFor (numOfLines : ℕ) (proportionContaminant : ℚ) : ℤ :=
  pyInt ((numOfLines : ℚ) * (1 - proportionContaminant))

/-- `numOfContaminantLines = int(numOfLines * proportionContaminant)`. -/
def numOfContaminantLinesFor (numOfLines : ℕ) (proportionContaminant : ℚ) : ℤ :=
  pyInt ((numOfLines : ℚ) * proportionContaminant)

/-- The triple `calculateLinesRequired` returns on success. -/
structure CalcResult where
  numOfLines : ℕ
  numOfSampleReads : ℤ
  numOfContaminantReads : ℤ
deriving DecidableEq

/-- `calculateLinesRequired`: computes the line/read splits from the sample
mate-1 file's line count and the proportion, and errors (the script prints
and calls `sys.exit()`) when the contaminant mate-1 file has fewer lines than
`numOfContaminantLines`.  `int(x / 4)` on Python-2 integers is floor
division. -/
def calculateLinesRequired (sampleReads1 contaminantReads1 : FastqFile)
    (proportionContaminant : ℚ) : Except RunError CalcResult :=
  let numOfLines := countFileLines sampleReads1
  let numOfSampleLines := numOfSampleLinesFor numOfLines proportionContaminant
  let numOfSampleReads := numOfSampleLines.fdiv 4
  let numOfContaminantLines := numOfContaminantLinesFor numOfLines proportionContaminant
  let numOfContaminantReads := numOfContaminantLines.fdiv 4
  if (countFileLines contaminantReads1 : ℤ) < numOfContaminantLines then
    Except.error (RunError.contaminantTooSmall numOfContaminantLines proportionContaminant)
  else
    Except.ok ⟨numOfLines, numOfSampleReads, numOfContaminantReads⟩

/-- Modelled from the spec: the external `fastq-sample` collaborator is not
part of this repository.  It is an opaque deterministic function from the two
mate files of a source, the seed and the requested read count to the two
subsampled mate files (`<prefix>.1.fastq`, `<prefix>.2.fastq`). -/
def Sampler : Type := FastqFile → FastqFile → ℤ → ℤ → FastqFile × FastqFile

/-- The arguments of one `sampleFastqReads` invocation. -/
structure SamplerCall where
  file1 : String
  file2 : String
  seedNum : ℤ
  numOfLinesRequired : ℤ
  outPfx : String
deriving DecidableEq

/-- The exact command string `sampleFastqReads` builds:
`"fastq-sample -n %d -o %s -s %d %s %s"`. -/
def sampleFastqReadsCmd (c : SamplerCall) : String :=
  "fastq-sample -n " ++ intRepr c.numOfLinesRequired ++ " -o " ++ c.outPfx ++
    " -s " ++ intRepr c.seedNum ++ " " ++ c.file1 ++ " " ++ c.file2

/-- `temp_sample%s % int(proportionContaminant * 100)`. -/
def tempSamplePfx (proportionContaminant : ℚ) : String :=
  "temp_sample" ++ intRepr (pyInt (proportionContaminant * 100))

/-- `temp_contaminant%s % int(proportionContaminant * 100)`. -/
def tempContaminantPfx (proportionContaminant : ℚ) : String :=
  "temp_contaminant" ++ intRepr (pyInt (proportionContaminant * 100))

/-- Name of the final mate-1 output: `"conPercent%s_%s"` from
`int(proportionContaminant * 100)` and the sample mate-1 filename. -/
def outputName1 (proportionContaminant : ℚ) (sampleReads1 : String) : String :=
  "conPercent" ++ intRepr (pyInt (proportionContaminant * 100)) ++ "_" ++ sampleReads1

/-- Name of the final mate-2 output: `"conPercent%s_%s"` from
`int(proportionContaminant * 100)` and the sample mate-2 filename. -/
def outputName2 (proportionContaminant : ℚ) (sampleReads2 : String) : String :=
  "conPercent" ++ intRepr (pyInt (proportionContaminant * 100)) ++ "_" ++ sampleReads2

/-- The exact `cat .. && cat .. && rm ..` shell command `simulateContamination`
builds. -/
def concatCmd (proportionContaminant : ℚ) (sampleReads1 sampleReads2 : String) : String :=
  "cat " ++ tempSamplePfx proportionContaminant ++ ".1.fastq " ++
    tempContaminantPfx proportionContaminant ++ ".1.fastq > " ++
    outputName1 proportionContaminant sampleReads1 ++
    " && cat " ++ tempSamplePfx proportionContaminant ++ ".2.fastq " ++
    tempContaminantPfx proportionContaminant ++ ".2.fastq > " ++
    outputName2 proportionContaminant sampleReads2 ++
    " && rm " ++ tempSamplePfx proportionContaminant ++ ".1.fastq " ++
    tempContaminantPfx proportionContaminant ++ ".1.fastq " ++
    tempSamplePfx proportionContaminant ++ ".2.fastq " ++
    tempContaminantPfx proportionContaminant ++ ".2.fastq"

/-- Record of one `simulateContamination` call: the two sampler invocations,
the shell pipeline, and its filesystem effect (final output names and
contents, temporary files removed). -/
structure SimulationRun where
  proportion : ℚ
  sampleCall : SamplerCall
  contaminantCall : SamplerCall
  combineCmd : String
  out1Name : String
  out2Name : String
  out1 : FastqFile
  out2 : FastqFile
  tempFilesDeleted : List String
deriving DecidableEq

/-- `simulateContamination`: samples from the sample source and the
contaminant source (both with `seedNum`), concatenates the mate-1 subsamples
and the mate-2 subsamples into the final outputs, and removes the four
temporary files. -/
def simulateContamination (sampler : Sampler)
    (sampleReads1 sampleReads2 contaminantReads1 contaminantReads2 : String)
    (sampleData1 sampleData2 contaminantData1 contaminantData2 : FastqFile)
    (proportionContaminant : ℚ) (numOfSampleReads numOfContaminantReads seedNum : ℤ) :
    SimulationRun :=
  let ts := tempSamplePfx proportionContaminant
  let tc := tempContaminantPfx proportionContaminant
  let sampleSub := sampler sampleData1 sampleData2 seedNum numOfSampleReads
  let contaminantSub := sampler contaminantData1 contaminantData2 seedNum numOfContaminantReads
  { proportion := proportionContaminant
    sampleCall := ⟨sampleReads1, sampleReads2, seedNum, numOfSampleReads, ts⟩
    contaminantCall := ⟨contaminantReads1, contaminantReads2, seedNum, numOfContaminantReads, tc⟩
    combineCmd := concatCmd proportionContaminant sampleReads1 sampleReads2
    out1Name := outputName1 proportionContaminant sampleReads1
    out2Name := outputName2 proportionContaminant sampleReads2
    out1 := sampleSub.1 ++ contaminantSub.1
    out2 := sampleSub.2 ++ contaminantSub.2
    tempFilesDeleted :=
      [ts ++ ".1.fastq", tc ++ ".1.fastq", ts ++ ".2.fastq", tc ++ ".2.fastq"] }

/-- Observable outcome of one process run: the simulations completed before
termination, the error printed on premature termination (if any), and the
process exit status.  Every path of the script terminates through either
falling off the end of the module or a bare `sys.exit()`, both of which give
exit status 0. -/
structure ProgramOutcome where
  completedRuns : List SimulationRun
  terminatingError : Option RunError
  exitCode : ℕ
deriving DecidableEq

/-- The `for prop in proportionContaminant` loop of the main block, carrying
the runs already completed (in reverse) as the accumulator. -/
def processProportions (g : Sampler) (s1n s2n c1n c2n : String)
    (s1 s2 c1 c2 : FastqFile) (seedNum : ℤ) :
    List ℚ → List SimulationRun → ProgramOutcome
  | [], acc => ⟨acc.reverse, none, 0⟩
  | p :: rest, acc =>
    match calculateLinesRequired s1 c1 p with
    | Except.error e => ⟨acc.reverse, some e, 0⟩
    | Except.ok r =>
      processProportions g s1n s2n c1n c2n s1 s2 c1 c2 seedNum rest
        (simulateContamination g s1n s2n c1n c2n s1 s2 c1 c2 p
          r.numOfSampleReads r.numOfContaminantReads seedNum :: acc)

/-- The main block: `checkInputFiles`, then the loop over the requested
proportions. -/
def runProgram (g : Sampler) (s1n s2n c1n c2n : String)
    (s1 s2 c1 c2 : FastqFile) (props : List ℚ) (seedNum : ℤ) : ProgramOutcome :=
  match checkInputFiles s1 s2 c1 c2 with
  | Except.error e => ⟨[], some e, 0⟩
  | Except.ok _ => processProportions g s1n s2n c1n c2n s1 s2 c1 c2 seedNum props []

/-- Concrete mate-1 sample file with 4000 lines. -/
def sampleFileA : FastqFile := List.replicate 4000 "sampleLineA"

/-- Concrete mate-2 sample file with 4000 lines. -/
def sampleFileB : FastqFile := List.replicate 4000 "sampleLineB"

/-- Concrete mate-1 contaminant file with 1000 lines. -/
def contaminantFileA : FastqFile := List.replicate 1000 "contamLineA"

/-- Concrete mate-2 contaminant file with 1000 lines. -/
def contaminantFileB : FastqFile := List.replicate 1000 "contamLineB"

/-- Modelled from the spec: the contract of the external sampler, which is
not part of this repository — for a requested read count it produces exactly
that many matched read pairs, i.e. each of its two output files holds four
lines per requested read. -/
def SamplerSpec (g : Sampler) : Prop :=
  ∀ f1 f2 : FastqFile, ∀ seed n : ℤ, 0 ≤ n →
    (g f1 f2 seed n).1.length = 4 * n.toNat ∧ (g f1 f2 seed n).2.length = 4 * n.toNat

/-- A concrete sampler honouring `SamplerSpec`. -/
def constSampler : Sampler := fun _ _ _ n =>
  (List.replicate (4 * n.toNat) "sampledLine", List.replicate (4 * n.toNat) "sampledLine")

theorem constSampler_spec : SamplerSpec constSampler := by
  intro f1 f2 seed n hn
  constructor <;> simp [constSampler]

theorem checkInputFiles_eq_ok_iff (s1 s2 c1 c2 : FastqFile) :
    checkInputFiles s1 s2 c1 c2 = Except.ok () ↔
      (countFileLines s1 = countFileLines s2 ∧ countFileLines c1 = countFileLines c2) := by
  by_cases h1 : countFileLines s1 = countFileLines s2 <;>
    by_cases h2 : countFileLines c1 = countFileLines c2 <;>
    simp [checkInputFiles, h1, h2]

theorem calculateLinesRequired_eq_error (s1 c1 : FastqFile) (p : ℚ)
    (h : (countFileLines c1 : ℤ) < numOfContaminantLinesFor (countFileLines s1) p) :
    calculateLinesRequired s1 c1 p =
      Except.error
        (RunError.contaminantTooSmall (numOfContaminantLinesFor (countFileLines s1) p) p) := by
  simp [calculateLinesRequired, h]

theorem calculateLinesRequired_eq_ok (s1 c1 : FastqFile) (p : ℚ)
    (h : ¬ (countFileLines c1 : ℤ) < numOfContaminantLinesFor (countFileLines s1) p) :
    calculateLinesRequired s1 c1 p =
      Except.ok ⟨countFileLines s1,
        (numOfSampleLinesFor (countFileLines s1) p).fdiv 4,
        (numOfContaminantLinesFor (countFileLines s1) p).fdiv 4⟩ := by
  simp [calculateLinesRequired, h]

theorem calculateLinesRequired_ok_not_lt (s1 c1 : FastqFile) (p : ℚ) (r : CalcResult)
    (h : calculateLinesRequired s1 c1 p = Except.ok r) :
    ¬ (countFileLines c1 : ℤ) < numOfContaminantLinesFor (countFileLines s1) p := by
  intro hlt
  rw [calculateLinesRequired_eq_error s1 c1 p hlt] at h
  simp at h

theorem processProportions_exitCode (g : Sampler) (s1n s2n c1n c2n : String)
    (s1 s2 c1 c2 : FastqFile) (seedNum : ℤ) :
    ∀ props acc, (processProportions g s1n s2n c1n c2n s1 s2 c1 c2 seedNum props acc).exitCode = 0 := by
  intro props
  induction props with
  | nil => intro acc; rfl
  | cons p rest ih =>
    intro acc
    simp only [processProportions]
    split
    · rfl
    · exact ih _

theorem processProportions_mem (g : Sampler) (s1n s2n c1n c2n : String)
    (s1 s2 c1 c2 : FastqFile) (seedNum : ℤ) :
    ∀ props acc (r : SimulationRun),
      r ∈ (processProportions g s1n s2n c1n c2n s1 s2 c1 c2 seedNum props acc).completedRuns →
      r ∈ acc ∨ (r.proportion ∈ props ∧
        ¬ (countFileLines c1 : ℤ) < numOfContaminantLinesFor (countFileLines s1) r.proportion) := by
  intro props
  induction props with
  | nil =>
    intro acc r hr
    left
    exact List.mem_reverse.mp hr
  | cons p rest ih =>
    intro acc r hr
    simp only [processProportions] at hr
    rcases hcalc : calculateLinesRequired s1 c1 p with e | cr
    · rw [hcalc] at hr
      left
      exact List.mem_reverse.mp hr
    · rw [hcalc] at hr
      rcases ih _ r hr with h | h
      · rcases List.mem_cons.mp h with h | h
        · right
          subst h
          have hp : (simulateContamination g s1n s2n c1n c2n s1 s2 c1 c2 p
              cr.numOfSampleReads cr.numOfContaminantReads seedNum).proportion = p := rfl
          rw [hp]
          exact ⟨List.mem_cons_self _ _, calculateLinesRequired_ok_not_lt s1 c1 p cr hcalc⟩
        · left; exact h
      · exact Or.inr ⟨List.mem_cons_of_mem _ h.1, h.2⟩

theorem processProportions_first_fail (g : Sampler) (s1n s2n c1n c2n : String)
    (s1 s2 c1 c2 : FastqFile) (seedNum : ℤ) (p : ℚ) (post : List ℚ)
    (hp : (countFileLines c1 : ℤ) < numOfContaminantLinesFor (countFileLines s1) p) :
    ∀ pre acc,
      (∀ q ∈ pre, ¬ (countFileLines c1 : ℤ) < numOfContaminantLinesFor (countFileLines s1) q) →
      (processProportions g s1n s2n c1n c2n s1 s2 c1 c2 seedNum (pre ++ p :: post) acc).terminatingError
        = some (RunError.contaminantTooSmall (numOfContaminantLinesFor (countFileLines s1) p) p) := by
  intro pre
  induction pre with
  | nil =>
    intro acc _
    simp only [List.nil_append, processProportions,
      calculateLinesRequired_eq_error s1 c1 p hp]
  | cons q pre ih =>
    intro acc hq
    have hqok := hq q (List.mem_cons_self _ _)
    simp only [List.cons_append, processProportions,
      calculateLinesRequired_eq_ok s1 c1 q hqok]
    exact ih _ (fun x hx => hq x (List.mem_cons_of_mem _ hx))

theorem runProgram_check_ok (g : Sampler) (s1n s2n c1n c2n : String)
    (s1 s2 c1 c2 : FastqFile) (props : List ℚ) (seedNum : ℤ)
    (h : checkInputFiles s1 s2 c1 c2 = Except.ok ()) :
    runProgram g s1n s2n c1n c2n s1 s2 c1 c2 props seedNum
      = processProportions g s1n s2n c1n c2n s1 s2 c1 c2 seedNum props [] := by
  unfold runProgram
  rw [h]

theorem runProgram_exitCode (g : Sampler) (s1n s2n c1n c2n : String)
    (s1 s2 c1 c2 : FastqFile) (props : List ℚ) (seedNum : ℤ) :
    (runProgram g s1n s2n c1n c2n s1 s2 c1 c2 props seedNum).exitCode = 0 := by
  unfold runProgram
  rcases h : checkInputFiles s1 s2 c1 c2 with e | u
  · rfl
  · exact processProportions_exitCode g s1n s2n c1n c2n s1 s2 c1 c2 seedNum props []

theorem numOfSampleLinesFor_eq (N : ℕ) (p : ℚ) (k : ℤ)
    (h : (N : ℚ) * (1 - p) = (k : ℚ)) : numOfSampleLinesFor N p = k := by
  rw [numOfSampleLinesFor, h, pyInt_intCast]

theorem numOfContaminantLinesFor_eq (N : ℕ) (p : ℚ) (k : ℤ)
    (h : (N : ℚ) * p = (k : ℚ)) : numOfContaminantLinesFor N p = k := by
  rw [numOfContaminantLinesFor, h, pyInt_intCast]

/-- Concrete 4-line mate-1 sample file. -/
def smallSample1 : FastqFile := ["@r1", "ACGT", "+", "IIII"]

/-- Concrete 4-line mate-2 sample file. -/
def smallSample2 : FastqFile := ["@r1b", "TGCA", "+", "IIII"]

/-- Concrete 5-line mate-2 file (mismatched against `smallSample1`). -/
def mismatchedSample2 : FastqFile := ["@r1b", "TGCA", "+", "IIII", "@r2b"]

/-- Concrete 1-line mate-1 contaminant file. -/
def smallContaminant1 : FastqFile := ["@c1"]

/-- Concrete 1-line mate-2 contaminant file. -/
def smallContaminant2 : FastqFile := ["@c1b"]

/-- Concrete 12-line mate-1 contaminant file. -/
def bigContaminant1 : FastqFile := List.replicate 12 "bigContamA"

/-- Concrete 12-line mate-2 contaminant file. -/
def bigContaminant2 : FastqFile := List.replicate 12 "bigContamB"

/-- Claim C1: for every sample mate-1 file and every requested proportion `p`
(the documented range is `(0, 1/2]`), `calculateLinesRequired` computes
exactly `numOfSampleLines = ⌊totalLines·(1-p)⌋`,
`numOfSampleReads = ⌊numOfSampleLines/4⌋`,
`numOfContaminantLines = ⌊totalLines·p⌋` and
`numOfContaminantReads = ⌊numOfContaminantLines/4⌋`, the floor truncation
preserved exactly; as a pure function of its arguments it is deterministic. -/
theorem claim_C1 (sampleReads1 contaminantReads1 : FastqFile) (p : ℚ)
    (hp0 : 0 < p) (hp1 : p ≤ 1 / 2) :
    numOfSampleLinesFor (countFileLines sampleReads1) p
        = ⌊(countFileLines sampleReads1 : ℚ) * (1 - p)⌋ ∧
    numOfContaminantLinesFor (countFileLines sampleReads1) p
        = ⌊(countFileLines sampleReads1 : ℚ) * p⌋ ∧
    ∀ r : CalcResult,
      calculateLinesRequired sampleReads1 contaminantReads1 p = Except.ok r →
      r.numOfLines = countFileLines sampleReads1 ∧
      r.numOfSampleReads
          = ⌊(numOfSampleLinesFor (countFileLines sampleReads1) p : ℚ) / 4⌋ ∧
      r.numOfContaminantReads
          = ⌊(numOfContaminantLinesFor (countFileLines sampleReads1) p : ℚ) / 4⌋ := by
  have hsub : (0 : ℚ) ≤ 1 - p := by linarith
  have h1 : (0 : ℚ) ≤ (countFileLines sampleReads1 : ℚ) * (1 - p) :=
    mul_nonneg (by positivity) hsub
  have h2 : (0 : ℚ) ≤ (countFileLines sampleReads1 : ℚ) * p :=
    mul_nonneg (by positivity) (le_of_lt hp0)
  refine ⟨?_, ?_, ?_⟩
  · rw [numOfSampleLinesFor, pyInt_eq_floor h1]
  · rw [numOfContaminantLinesFor, pyInt_eq_floor h2]
  · intro r hr
    have hnl := calculateLinesRequired_ok_not_lt sampleReads1 contaminantReads1 p r hr
    rw [calculateLinesRequired_eq_ok sampleReads1 contaminantReads1 p hnl] at hr
    injection hr with hr
    subst hr
    exact ⟨rfl, fdiv_four_eq_floor _, fdiv_four_eq_floor _⟩

theorem claim_C1_witness :
    (0 : ℚ) < 1 / 5 ∧ (1 / 5 : ℚ) ≤ 1 / 2 ∧
    (numOfSampleLinesFor (countFileLines sampleFileA) (1 / 5)
        = ⌊(countFileLines sampleFileA : ℚ) * (1 - 1 / 5)⌋ ∧
      numOfContaminantLinesFor (countFileLines sampleFileA) (1 / 5)
        = ⌊(countFileLines sampleFileA : ℚ) * (1 / 5)⌋ ∧
      ∀ r : CalcResult,
        calculateLinesRequired sampleFileA contaminantFileA (1 / 5) = Except.ok r →
        r.numOfLines = countFileLines sampleFileA ∧
        r.numOfSampleReads
            = ⌊(numOfSampleLinesFor (countFileLines sampleFileA) (1 / 5) : ℚ) / 4⌋ ∧
        r.numOfContaminantReads
            = ⌊(numOfContaminantLinesFor (countFileLines sampleFileA) (1 / 5) : ℚ) / 4⌋) :=
  ⟨by norm_num, by norm_num,
    claim_C1 sampleFileA contaminantFileA (1 / 5) (by norm_num) (by norm_num)⟩

/-- Claim C2: for every proportion `p` whose required contaminant line count
exceeds the contaminant mate-1 file's line count (the first such `p` in the
requested list), the program terminates with the error naming the requested
line count and the proportion, and no simulation (hence no output file) is
produced for that proportion. -/
theorem claim_C2 (g : Sampler) (s1n s2n c1n c2n : String) (s1 s2 c1 c2 : FastqFile)
    (seedNum : ℤ) (pre post : List ℚ) (p : ℚ)
    (hcheck : checkInputFiles s1 s2 c1 c2 = Except.ok ())
    (hpre : ∀ q ∈ pre,
      ¬ (countFileLines c1 : ℤ) < numOfContaminantLinesFor (countFileLines s1) q)
    (hp : (countFileLines c1 : ℤ) < numOfContaminantLinesFor (countFileLines s1) p) :
    (runProgram g s1n s2n c1n c2n s1 s2 c1 c2 (pre ++ p :: post) seedNum).terminatingError
        = some (RunError.contaminantTooSmall
            (numOfContaminantLinesFor (countFileLines s1) p) p) ∧
    ∀ r ∈ (runProgram g s1n s2n c1n c2n s1 s2 c1 c2 (pre ++ p :: post) seedNum).completedRuns,
      r.proportion ≠ p := by
  rw [runProgram_check_ok g s1n s2n c1n c2n s1 s2 c1 c2 _ seedNum hcheck]
  constructor
  · exact processProportions_first_fail g s1n s2n c1n c2n s1 s2 c1 c2 seedNum p post hp pre [] hpre
  · intro r hr hrp
    rcases processProportions_mem g s1n s2n c1n c2n s1 s2 c1 c2 seedNum
        (pre ++ p :: post) [] r hr with h | h
    · simp at h
    · rw [hrp] at h
      exact h.2 hp

theorem claim_C2_witness :
    checkInputFiles smallSample1 smallSample2 smallContaminant1 smallContaminant2
        = Except.ok () ∧
    ((countFileLines smallContaminant1 : ℤ)
        < numOfContaminantLinesFor (countFileLines smallSample1) (1 / 2)) ∧
    ((runProgram constSampler "s1.fastq" "s2.fastq" "c1.fastq" "c2.fastq"
          smallSample1 smallSample2 smallContaminant1 smallContaminant2
          [(1 / 2 : ℚ)] 5).terminatingError
        = some (RunError.contaminantTooSmall
            (numOfContaminantLinesFor (countFileLines smallSample1) (1 / 2)) (1 / 2)) ∧
      ∀ r ∈ (runProgram constSampler "s1.fastq" "s2.fastq" "c1.fastq" "c2.fastq"
          smallSample1 smallSample2 smallContaminant1 smallContaminant2
          [(1 / 2 : ℚ)] 5).completedRuns, r.proportion ≠ 1 / 2) :=
  ⟨rfl, by
      show (1 : ℤ) < numOfContaminantLinesFor 4 (1 / 2)
      rw [numOfContaminantLinesFor_eq 4 (1 / 2) 2 (by norm_num)]
      norm_num,
    claim_C2 constSampler "s1.fastq" "s2.fastq" "c1.fastq" "c2.fastq"
      smallSample1 smallSample2 smallContaminant1 smallContaminant2
      5 [] [] (1 / 2) rfl (by simp) (by
        show (1 : ℤ) < numOfContaminantLinesFor 4 (1 / 2)
        rw [numOfContaminantLinesFor_eq 4 (1 / 2) 2 (by norm_num)]
        norm_num)⟩

/-- Claim C3: mismatched mate line counts (either pair) make the program
terminate with an error identifying the failing pair, before any sampling is
invoked or any output file is written (`completedRuns = []`); when both pairs
match, validation passes and the program continues into the proportion
loop. -/
theorem claim_C3 (g : Sampler) (s1n s2n c1n c2n : String) (s1 s2 c1 c2 : FastqFile)
    (props : List ℚ) (seedNum : ℤ) :
    (countFileLines s1 ≠ countFileLines s2 →
      runProgram g s1n s2n c1n c2n s1 s2 c1 c2 props seedNum
        = ⟨[], some RunError.sampleMismatch, 0⟩) ∧
    (countFileLines s1 = countFileLines s2 → countFileLines c1 ≠ countFileLines c2 →
      runProgram g s1n s2n c1n c2n s1 s2 c1 c2 props seedNum
        = ⟨[], some RunError.contaminantMismatch, 0⟩) ∧
    (countFileLines s1 = countFileLines s2 → countFileLines c1 = countFileLines c2 →
      checkInputFiles s1 s2 c1 c2 = Except.ok () ∧
      runProgram g s1n s2n c1n c2n s1 s2 c1 c2 props seedNum
        = processProportions g s1n s2n c1n c2n s1 s2 c1 c2 seedNum props []) := by
  refine ⟨?_, ?_, ?_⟩
  · intro h
    have hch : checkInputFiles s1 s2 c1 c2 = Except.error RunError.sampleMismatch := by
      simp [checkInputFiles, h]
    unfold runProgram
    rw [hch]
  · intro h1 h2
    have hch : checkInputFiles s1 s2 c1 c2 = Except.error RunError.contaminantMismatch := by
      simp [checkInputFiles, h1, h2]
    unfold runProgram
    rw [hch]
  · intro h1 h2
    have hch := (checkInputFiles_eq_ok_iff s1 s2 c1 c2).mpr ⟨h1, h2⟩
    exact ⟨hch, runProgram_check_ok g s1n s2n c1n c2n s1 s2 c1 c2 props seedNum hch⟩

theorem claim_C3_witness :
    countFileLines smallSample1 ≠ countFileLines mismatchedSample2 ∧
    runProgram constSampler "s1.fastq" "s2.fastq" "c1.fastq" "c2.fastq"
        smallSample1 mismatchedSample2 smallContaminant1 smallContaminant2 [(1 / 2 : ℚ)] 5
      = ⟨[], some RunError.sampleMismatch, 0⟩ :=
  ⟨by decide,
    (claim_C3 constSampler "s1.fastq" "s2.fastq" "c1.fastq" "c2.fastq"
      smallSample1 mismatchedSample2 smallContaminant1 smallContaminant2
      [(1 / 2 : ℚ)] 5).1 (by decide)⟩

/-- Claim C4: for every proportion that reaches `simulateContamination`, the
final mate-1 output is the sample mate-1 subsample followed by the
contaminant mate-1 subsample, the final mate-2 output likewise, and the four
temporary subsample files are deleted after the two concatenations (the
`rm` is the last stage of the `cat && cat && rm` pipeline). -/
theorem claim_C4 (g : Sampler) (s1n s2n c1n c2n : String)
    (sd1 sd2 cd1 cd2 : FastqFile) (p : ℚ) (nS nC seedNum : ℤ) :
    (simulateContamination g s1n s2n c1n c2n sd1 sd2 cd1 cd2 p nS nC seedNum).out1
        = (g sd1 sd2 seedNum nS).1 ++ (g cd1 cd2 seedNum nC).1 ∧
    (simulateContamination g s1n s2n c1n c2n sd1 sd2 cd1 cd2 p nS nC seedNum).out2
        = (g sd1 sd2 seedNum nS).2 ++ (g cd1 cd2 seedNum nC).2 ∧
    (simulateContamination g s1n s2n c1n c2n sd1 sd2 cd1 cd2 p nS nC seedNum).tempFilesDeleted
        = [tempSamplePfx p ++ ".1.fastq", tempContaminantPfx p ++ ".1.fastq",
           tempSamplePfx p ++ ".2.fastq", tempContaminantPfx p ++ ".2.fastq"] ∧
    (simulateContamination g s1n s2n c1n c2n sd1 sd2 cd1 cd2 p nS nC seedNum).combineCmd
        = concatCmd p s1n s2n :=
  ⟨rfl, rfl, rfl, rfl⟩

/-- Claim C5: the sample-source and contaminant-source invocations of the
external sampler are passed exactly the same seed, and the outcome of a run
is a function of the inputs, proportions and seed alone, so two runs with
identical arguments are identical. -/
theorem claim_C5 (g : Sampler) (s1n s2n c1n c2n : String)
    (sd1 sd2 cd1 cd2 : FastqFile) (props : List ℚ) (p : ℚ) (nS nC seedNum : ℤ) :
    (simulateContamination g s1n s2n c1n c2n sd1 sd2 cd1 cd2 p nS nC seedNum).sampleCall.seedNum
        = seedNum ∧
    (simulateContamination g s1n s2n c1n c2n sd1 sd2 cd1 cd2 p nS nC seedNum).contaminantCall.seedNum
        = seedNum ∧
    ∀ o1 o2 : ProgramOutcome,
      o1 = runProgram g s1n s2n c1n c2n sd1 sd2 cd1 cd2 props seedNum →
      o2 = runProgram g s1n s2n c1n c2n sd1 sd2 cd1 cd2 props seedNum →
      o1 = o2 := by
  refine ⟨rfl, rfl, ?_⟩
  intro o1 o2 h1 h2
  rw [h1, h2]

theorem claim_C5_witness :
    (simulateContamination constSampler "s1.fastq" "s2.fastq" "c1.fastq" "c2.fastq"
        smallSample1 smallSample2 smallContaminant1 smallContaminant2 (1 / 4) 1 0 5).sampleCall.seedNum
      = 5 ∧
    (simulateContamination constSampler "s1.fastq" "s2.fastq" "c1.fastq" "c2.fastq"
        smallSample1 smallSample2 smallContaminant1 smallContaminant2 (1 / 4) 1 0 5).contaminantCall.seedNum
      = 5 ∧
    runProgram constSampler "s1.fastq" "s2.fastq" "c1.fastq" "c2.fastq"
        smallSample1 smallSample2 smallContaminant1 smallContaminant2 [(1 / 4 : ℚ)] 5
      = runProgram constSampler "s1.fastq" "s2.fastq" "c1.fastq" "c2.fastq"
        smallSample1 smallSample2 smallContaminant1 smallContaminant2 [(1 / 4 : ℚ)] 5 := by
  have h := claim_C5 constSampler "s1.fastq" "s2.fastq" "c1.fastq" "c2.fastq"
    smallSample1 smallSample2 smallContaminant1 smallContaminant2
    [(1 / 4 : ℚ)] (1 / 4) 1 0 5
  exact ⟨h.1, h.2.1, h.2.2 _ _ rfl rfl⟩

theorem string_data_append (a b : String) : (a ++ b).data = a.data ++ b.data := rfl

theorem percentField_cancel (k1 k2 : ℤ) (tag name : String)
    (h : tag ++ intRepr k1 ++ "_" ++ name = tag ++ intRepr k2 ++ "_" ++ name) :
    k1 = k2 := by
  have hdata := congrArg String.data h
  simp only [string_data_append, List.append_assoc] at hdata
  have h2 := List.append_cancel_left hdata
  have h3 := List.append_cancel_right h2
  exact intRepr_injective (String.ext h3)

/-- Claim C6 counterexample: the script encodes `int(p*100)` (truncation),
not `round(p*100)`.  At `p = 3/64 = 0.046875` (a proportion and a product
`4.6875` both exactly representable as binary floats, so the rational model
agrees with the float computation), the mate-1 output name carries `4`,
while the nearest integer to `p·100` is `5`. -/
theorem claim_C6_counterexample :
    outputName1 (3 / 64) "sample_R1.fastq" = "conPercent4_sample_R1.fastq" ∧
    round ((3 / 64 : ℚ) * 100) = 5 ∧
    outputName1 (3 / 64) "sample_R1.fastq"
      ≠ "conPercent" ++ intRepr (round ((3 / 64 : ℚ) * 100)) ++ "_" ++ "sample_R1.fastq" := by
  have hp : pyInt ((3 / 64 : ℚ) * 100) = 4 :=
    pyInt_eq_of_bounds _ 4 (by norm_num) (by norm_num) (by norm_num)
  have hr : round ((3 / 64 : ℚ) * 100) = 5 := by
    rw [round_eq, Int.floor_eq_iff]
    constructor <;> norm_num
  refine ⟨?_, hr, ?_⟩
  · rw [outputName1, hp]
    rfl
  · rw [outputName1, hp, hr]
    decide

/-- Claim C6 (amended): for every nonnegative proportion `p`, the two final
output names encode the truncated integer percentage `int(p·100) = ⌊p·100⌋`
(not the nearest integer) together with the originating sample filename
(mate 1 and mate 2 respectively). -/
theorem claim_C6_amended (p : ℚ) (name1 name2 : String) (hp : 0 ≤ p) :
    outputName1 p name1 = "conPercent" ++ intRepr ⌊p * 100⌋ ++ "_" ++ name1 ∧
    outputName2 p name2 = "conPercent" ++ intRepr ⌊p * 100⌋ ++ "_" ++ name2 := by
  have h : pyInt (p * 100) = ⌊p * 100⌋ :=
    pyInt_eq_floor (mul_nonneg hp (by norm_num))
  rw [outputName1, outputName2, h]
  exact ⟨rfl, rfl⟩

theorem claim_C6_amended_witness :
    (0 : ℚ) ≤ 1 / 5 ∧
    (outputName1 (1 / 5) "sample_R1.fastq"
        = "conPercent" ++ intRepr ⌊(1 / 5 : ℚ) * 100⌋ ++ "_" ++ "sample_R1.fastq" ∧
      outputName2 (1 / 5) "sample_R2.fastq"
        = "conPercent" ++ intRepr ⌊(1 / 5 : ℚ) * 100⌋ ++ "_" ++ "sample_R2.fastq") :=
  ⟨by norm_num, claim_C6_amended (1 / 5) "sample_R1.fastq" "sample_R2.fastq" (by norm_num)⟩

/-- Claim C7 counterexample: two distinct proportions whose truncated
percentages coincide produce identical output filenames.  At `p₁ = 1/4` and
`p₂ = 65/256 = 0.25390625` (both, and both products `25` and `25.390625`,
exactly representable as binary floats) the names collide on `25`. -/
theorem claim_C7_counterexample :
    ((1 / 4 : ℚ) ≠ 65 / 256) ∧
    outputName1 (1 / 4) "sample_R1.fastq" = outputName1 (65 / 256) "sample_R1.fastq" ∧
    outputName2 (1 / 4) "sample_R2.fastq" = outputName2 (65 / 256) "sample_R2.fastq" := by
  have h1 : pyInt ((1 / 4 : ℚ) * 100) = 25 :=
    pyInt_eq_of_bounds _ 25 (by norm_num) (by norm_num) (by norm_num)
  have h2 : pyInt ((65 / 256 : ℚ) * 100) = 25 :=
    pyInt_eq_of_bounds _ 25 (by norm_num) (by norm_num) (by norm_num)
  refine ⟨by norm_num, ?_, ?_⟩
  · rw [outputName1, outputName1, h1, h2]
  · rw [outputName2, outputName2, h1, h2]

/-- Claim C7 (amended): for every two proportions and each mate's sample
filename, the output filenames for the two proportions coincide if and only
if their truncated integer percentages `int(p·100)` coincide.  Hence
distinct proportions receive distinct output filenames exactly when those
truncated percentages differ, and distinct proportions sharing a truncated
percentage receive identical output filenames (the later proportion's
concatenation then writes the same output paths again). -/
theorem claim_C7_amended (p1 p2 : ℚ) (name1 name2 : String) :
    (outputName1 p1 name1 = outputName1 p2 name1
        ↔ pyInt (p1 * 100) = pyInt (p2 * 100)) ∧
    (outputName2 p1 name2 = outputName2 p2 name2
        ↔ pyInt (p1 * 100) = pyInt (p2 * 100)) := by
  refine ⟨⟨fun h => ?_, fun h => ?_⟩, ⟨fun h => ?_, fun h => ?_⟩⟩
  · unfold outputName1 at h
    exact percentField_cancel _ _ "conPercent" name1 h
  · unfold outputName1
    rw [h]
  · unfold outputName2 at h
    exact percentField_cancel _ _ "conPercent" name2 h
  · unfold outputName2
    rw [h]

/-- Claim C8 counterexample: on a validation failure the process does not
exit with a non-zero status.  With mismatched sample mate files the program
terminates reporting the mismatch, yet its exit status is 0, because every
`sys.exit()` in the script is called with no argument. -/
theorem claim_C8_counterexample :
    (runProgram constSampler "s1.fastq" "s2.fastq" "c1.fastq" "c2.fastq"
        smallSample1 mismatchedSample2 smallContaminant1 smallContaminant2
        [(1 / 2 : ℚ)] 5).terminatingError = some RunError.sampleMismatch ∧
    ¬ (runProgram constSampler "s1.fastq" "s2.fastq" "c1.fastq" "c2.fastq"
        smallSample1 mismatchedSample2 smallContaminant1 smallContaminant2
        [(1 / 2 : ℚ)] 5).exitCode ≠ 0 :=
  ⟨rfl, fun h => h rfl⟩

/-- Claim C8 (amended): whenever the program terminates because of a
validation failure or a sizing failure, it reports the error but exits with
status 0 (the success status), since `sys.exit()` is invoked with no
argument on every error path. -/
theorem claim_C8_amended (g : Sampler) (s1n s2n c1n c2n : String) (s1 s2 c1 c2 : FastqFile)
    (props : List ℚ) (seedNum : ℤ)
    (_h : (runProgram g s1n s2n c1n c2n s1 s2 c1 c2 props seedNum).terminatingError.isSome
        = true) :
    (runProgram g s1n s2n c1n c2n s1 s2 c1 c2 props seedNum).exitCode = 0 :=
  runProgram_exitCode g s1n s2n c1n c2n s1 s2 c1 c2 props seedNum

theorem claim_C8_amended_witness :
    (runProgram constSampler "s1.fastq" "s2.fastq" "c1.fastq" "c2.fastq"
        smallSample1 mismatchedSample2 smallContaminant1 smallContaminant2
        [(1 / 2 : ℚ)] 5).terminatingError.isSome = true ∧
    (runProgram constSampler "s1.fastq" "s2.fastq" "c1.fastq" "c2.fastq"
        smallSample1 mismatchedSample2 smallContaminant1 smallContaminant2
        [(1 / 2 : ℚ)] 5).exitCode = 0 :=
  ⟨rfl, claim_C8_amended constSampler "s1.fastq" "s2.fastq" "c1.fastq" "c2.fastq"
    smallSample1 mismatchedSample2 smallContaminant1 smallContaminant2
    [(1 / 2 : ℚ)] 5 rfl⟩

/-- Claim C9: the concrete scenario — sample files with 4000 lines each,
contaminant files with 1000 lines each, `p = 0.2`, seed 5.
`calculateLinesRequired` yields 3200 sample lines (800 reads) and 800
contaminant lines (200 reads); the sufficiency check passes (1000 ≥ 800); for
any sampler honouring its documented contract, each final mate file is the
800 sample-derived read records (3200 lines) followed by the 200
contaminant-derived read records (800 lines), 4000 lines in total. -/
theorem claim_C9 (g : Sampler) (hg : SamplerSpec g) :
    numOfSampleLinesFor (countFileLines sampleFileA) (1 / 5) = 3200 ∧
    numOfContaminantLinesFor (countFileLines sampleFileA) (1 / 5) = 800 ∧
    calculateLinesRequired sampleFileA contaminantFileA (1 / 5)
        = Except.ok ⟨4000, 800, 200⟩ ∧
    runProgram g "S_R1.fastq" "S_R2.fastq" "C_R1.fastq" "C_R2.fastq"
        sampleFileA sampleFileB contaminantFileA contaminantFileB [(1 / 5 : ℚ)] 5
      = ⟨[simulateContamination g "S_R1.fastq" "S_R2.fastq" "C_R1.fastq" "C_R2.fastq"
            sampleFileA sampleFileB contaminantFileA contaminantFileB (1 / 5) 800 200 5],
          none, 0⟩ ∧
    (simulateContamination g "S_R1.fastq" "S_R2.fastq" "C_R1.fastq" "C_R2.fastq"
        sampleFileA sampleFileB contaminantFileA contaminantFileB (1 / 5) 800 200 5).out1
      = (g sampleFileA sampleFileB 5 800).1 ++ (g contaminantFileA contaminantFileB 5 200).1 ∧
    (g sampleFileA sampleFileB 5 800).1.length = 3200 ∧
    (g contaminantFileA contaminantFileB 5 200).1.length = 800 ∧
    countFileLines (simulateContamination g "S_R1.fastq" "S_R2.fastq" "C_R1.fastq" "C_R2.fastq"
        sampleFileA sampleFileB contaminantFileA contaminantFileB (1 / 5) 800 200 5).out1
      = 4000 ∧
    (simulateContamination g "S_R1.fastq" "S_R2.fastq" "C_R1.fastq" "C_R2.fastq"
        sampleFileA sampleFileB contaminantFileA contaminantFileB (1 / 5) 800 200 5).out2
      = (g sampleFileA sampleFileB 5 800).2 ++ (g contaminantFileA contaminantFileB 5 200).2 ∧
    countFileLines (simulateContamination g "S_R1.fastq" "S_R2.fastq" "C_R1.fastq" "C_R2.fastq"
        sampleFileA sampleFileB contaminantFileA contaminantFileB (1 / 5) 800 200 5).out2
      = 4000 := by
  have hS : countFileLines sampleFileA = 4000 := by
    rw [countFileLines, sampleFileA, List.length_replicate]
  have hSb : countFileLines sampleFileB = 4000 := by
    rw [countFileLines, sampleFileB, List.length_replicate]
  have hC : countFileLines contaminantFileA = 1000 := by
    rw [countFileLines, contaminantFileA, List.length_replicate]
  have hCb : countFileLines contaminantFileB = 1000 := by
    rw [countFileLines, contaminantFileB, List.length_replicate]
  have h1 : numOfSampleLinesFor (countFileLines sampleFileA) (1 / 5) = 3200 := by
    rw [hS]
    exact numOfSampleLinesFor_eq 4000 (1 / 5) 3200 (by norm_num)
  have h2 : numOfContaminantLinesFor (countFileLines sampleFileA) (1 / 5) = 800 := by
    rw [hS]
    exact numOfContaminantLinesFor_eq 4000 (1 / 5) 800 (by norm_num)
  have hno : ¬ (countFileLines contaminantFileA : ℤ)
      < numOfContaminantLinesFor (countFileLines sampleFileA) (1 / 5) := by
    rw [hC, h2]
    norm_num
  have hf1 : (3200 : ℤ).fdiv 4 = 800 := by decide
  have hf2 : (800 : ℤ).fdiv 4 = 200 := by decide
  have hcalc : calculateLinesRequired sampleFileA contaminantFileA (1 / 5)
      = Except.ok ⟨4000, 800, 200⟩ := by
    rw [calculateLinesRequired_eq_ok sampleFileA contaminantFileA (1 / 5) hno,
      h1, h2, hS, hf1, hf2]
  have hcheck : checkInputFiles sampleFileA sampleFileB contaminantFileA contaminantFileB
      = Except.ok () := by
    rw [checkInputFiles_eq_ok_iff, hS, hSb, hC, hCb]
    exact ⟨rfl, rfl⟩
  have hrun : runProgram g "S_R1.fastq" "S_R2.fastq" "C_R1.fastq" "C_R2.fastq"
      sampleFileA sampleFileB contaminantFileA contaminantFileB [(1 / 5 : ℚ)] 5
      = ⟨[simulateContamination g "S_R1.fastq" "S_R2.fastq" "C_R1.fastq" "C_R2.fastq"
            sampleFileA sampleFileB contaminantFileA contaminantFileB (1 / 5) 800 200 5],
          none, 0⟩ := by
    rw [runProgram_check_ok g "S_R1.fastq" "S_R2.fastq" "C_R1.fastq" "C_R2.fastq"
      sampleFileA sampleFileB contaminantFileA contaminantFileB [(1 / 5 : ℚ)] 5 hcheck]
    simp only [processProportions, hcalc, List.reverse_cons, List.reverse_nil,
      List.nil_append]
  have hg1 := hg sampleFileA sampleFileB 5 800 (by norm_num)
  have hg2 := hg contaminantFileA contaminantFileB 5 200 (by norm_num)
  have hlen1 : (g sampleFileA sampleFileB 5 800).1.length = 3200 := by
    rw [hg1.1]
    decide
  have hlen2 : (g contaminantFileA contaminantFileB 5 200).1.length = 800 := by
    rw [hg2.1]
    decide
  have hlen1b : (g sampleFileA sampleFileB 5 800).2.length = 3200 := by
    rw [hg1.2]
    decide
  have hlen2b : (g contaminantFileA contaminantFileB 5 200).2.length = 800 := by
    rw [hg2.2]
    decide
  have hout1 : countFileLines (simulateContamination g "S_R1.fastq" "S_R2.fastq"
      "C_R1.fastq" "C_R2.fastq" sampleFileA sampleFileB contaminantFileA contaminantFileB
      (1 / 5) 800 200 5).out1 = 4000 := by
    show ((g sampleFileA sampleFileB 5 800).1
        ++ (g contaminantFileA contaminantFileB 5 200).1).length = 4000
    rw [List.length_append, hlen1, hlen2]
  have hout2 : countFileLines (simulateContamination g "S_R1.fastq" "S_R2.fastq"
      "C_R1.fastq" "C_R2.fastq" sampleFileA sampleFileB contaminantFileA contaminantFileB
      (1 / 5) 800 200 5).out2 = 4000 := by
    show ((g sampleFileA sampleFileB 5 800).2
        ++ (g contaminantFileA contaminantFileB 5 200).2).length = 4000
    rw [List.length_append, hlen1b, hlen2b]
  exact ⟨h1, h2, hcalc, hrun, rfl, hlen1, hlen2, hout1, rfl, hout2⟩

theorem claim_C9_witness :
    SamplerSpec constSampler ∧
    (numOfSampleLinesFor (countFileLines sampleFileA) (1 / 5) = 3200 ∧
      numOfContaminantLinesFor (countFileLines sampleFileA) (1 / 5) = 800 ∧
      calculateLinesRequired sampleFileA contaminantFileA (1 / 5)
          = Except.ok ⟨4000, 800, 200⟩ ∧
      runProgram constSampler "S_R1.fastq" "S_R2.fastq" "C_R1.fastq" "C_R2.fastq"
          sampleFileA sampleFileB contaminantFileA contaminantFileB [(1 / 5 : ℚ)] 5
        = ⟨[simulateContamination constSampler "S_R1.fastq" "S_R2.fastq" "C_R1.fastq"
              "C_R2.fastq" sampleFileA sampleFileB contaminantFileA contaminantFileB
              (1 / 5) 800 200 5], none, 0⟩ ∧
      (simulateContamination constSampler "S_R1.fastq" "S_R2.fastq" "C_R1.fastq"
          "C_R2.fastq" sampleFileA sampleFileB contaminantFileA contaminantFileB
          (1 / 5) 800 200 5).out1
        = (constSampler sampleFileA sampleFileB 5 800).1
            ++ (constSampler contaminantFileA contaminantFileB 5 200).1 ∧
      (constSampler sampleFileA sampleFileB 5 800).1.length = 3200 ∧
      (constSampler contaminantFileA contaminantFileB 5 200).1.length = 800 ∧
      countFileLines (simulateContamination constSampler "S_R1.fastq" "S_R2.fastq"
          "C_R1.fastq" "C_R2.fastq" sampleFileA sampleFileB contaminantFileA
          contaminantFileB (1 / 5) 800 200 5).out1 = 4000 ∧
      (simulateContamination constSampler "S_R1.fastq" "S_R2.fastq" "C_R1.fastq"
          "C_R2.fastq" sampleFileA sampleFileB contaminantFileA contaminantFileB
          (1 / 5) 800 200 5).out2
        = (constSampler sampleFileA sampleFileB 5 800).2
            ++ (constSampler contaminantFileA contaminantFileB 5 200).2 ∧
      countFileLines (simulateContamination constSampler "S_R1.fastq" "S_R2.fastq"
          "C_R1.fastq" "C_R2.fastq" sampleFileA sampleFileB contaminantFileA
          contaminantFileB (1 / 5) 800 200 5).out2 = 4000) :=
  ⟨constSampler_spec, claim_C9 constSampler constSampler_spec⟩

/-- Claim C10 (implicit): the script never enforces the documented proportion
range `(0, 0.5]`.  For every rational `p` — including `p ≤ 0`, `p > 0.5` or
`p > 1` — once the mate-pair validation passes and the contaminant file has
at least `numOfContaminantLines` lines, the run proceeds through
`calculateLinesRequired` into `simulateContamination` and completes without
any error; no range check exists anywhere on the path. -/
theorem claim_C10 (g : Sampler) (s1n s2n c1n c2n : String) (s1 s2 c1 c2 : FastqFile)
    (p : ℚ) (seedNum : ℤ)
    (hcheck : checkInputFiles s1 s2 c1 c2 = Except.ok ())
    (hsize : ¬ (countFileLines c1 : ℤ) < numOfContaminantLinesFor (countFileLines s1) p) :
    runProgram g s1n s2n c1n c2n s1 s2 c1 c2 [p] seedNum
      = ⟨[simulateContamination g s1n s2n c1n c2n s1 s2 c1 c2 p
            ((numOfSampleLinesFor (countFileLines s1) p).fdiv 4)
            ((numOfContaminantLinesFor (countFileLines s1) p).fdiv 4) seedNum],
          none, 0⟩ := by
  rw [runProgram_check_ok g s1n s2n c1n c2n s1 s2 c1 c2 [p] seedNum hcheck]
  simp only [processProportions, calculateLinesRequired_eq_ok s1 c1 p hsize,
    List.reverse_cons, List.reverse_nil, List.nil_append]

theorem claim_C10_witness :
    checkInputFiles smallSample1 smallSample2 bigContaminant1 bigContaminant2
        = Except.ok () ∧
    ¬ (countFileLines bigContaminant1 : ℤ)
        < numOfContaminantLinesFor (countFileLines smallSample1) 3 ∧
    runProgram constSampler "s1.fastq" "s2.fastq" "c1.fastq" "c2.fastq"
        smallSample1 smallSample2 bigContaminant1 bigContaminant2 [(3 : ℚ)] 5
      = ⟨[simulateContamination constSampler "s1.fastq" "s2.fastq" "c1.fastq" "c2.fastq"
            smallSample1 smallSample2 bigContaminant1 bigContaminant2 3
            ((numOfSampleLinesFor (countFileLines smallSample1) 3).fdiv 4)
            ((numOfContaminantLinesFor (countFileLines smallSample1) 3).fdiv 4) 5],
          none, 0⟩ := by
  have hsize : ¬ (countFileLines bigContaminant1 : ℤ)
      < numOfContaminantLinesFor (countFileLines smallSample1) 3 := by
    show ¬ (countFileLines bigContaminant1 : ℤ) < numOfContaminantLinesFor 4 3
    rw [numOfContaminantLinesFor_eq 4 3 12 (by norm_num)]
    simp [bigContaminant1, countFileLines]
  exact ⟨rfl, hsize,
    claim_C10 constSampler "s1.fastq" "s2.fastq" "c1.fastq" "c2.fastq"
      smallSample1 smallSample2 bigContaminant1 bigContaminant2 3 5 rfl hsize⟩
